import Mathlib

/-!
Shallow embedding of `src/production_app.py` (NIFTY 50 monitor) and proofs
about its core algorithms: alert evaluation, market-hours gating, telegram
retry/backoff, candle-id normalization, idempotent per-candle processing,
ledger failure containment, and the bounded in-memory alert history.

Prices and timestamps are modelled as rationals (the claims only use
subtraction, absolute value and order, which the decimal inputs at issue
realize exactly).  Side effects (SQLite, HTTP, logging) are made explicit:
database operations return `Except` at the primitive level with a success
flag injecting failures, and the processing step returns the list of log
lines it emitted.
-/

namespace NiftyMonitor

/-- Direction of a candle-to-candle movement, the strings "UP"/"DOWN". -/
inductive Direction
  | UP
  | DOWN
deriving DecidableEq, Repr

/-- Result of the inline alert evaluation in `process_index_data`
(lines 231, 252-254 of `production_app.py`). -/
structure EvalResult where
  movement : ℚ
  direction : Direction
  shouldAlert : Bool
deriving DecidableEq, Repr

/-- The alert evaluation as written in `process_index_data`:
`movement = current - previous`, `direction = "UP" if movement > 0 else
"DOWN"`, alert iff `abs(movement) >= threshold`. -/
def evaluate (previousClose currentClose threshold : ℚ) : EvalResult :=
  let movement := currentClose - previousClose
  { movement := movement
    direction := if movement > 0 then Direction.UP else Direction.DOWN
    shouldAlert := decide (|movement| ≥ threshold) }

/-- A wall-clock instant in the IST timezone, as Python's `datetime` exposes
it to `is_market_open`: `weekday()` (Monday = 0 .. Sunday = 6) and the
time-of-day fields. -/
structure ISTNow where
  weekday : Fin 7
  hour : Fin 24
  minute : Fin 60
  second : Fin 60
  microsecond : Fin 1000000
deriving DecidableEq, Repr

/-- Microseconds since local midnight for given time-of-day fields. -/
def timeOfDayMicros (h m s us : ℕ) : ℕ :=
  ((h * 60 + m) * 60 + s) * 1000000 + us

/-- `now.replace(hour=9, minute=15, second=0, microsecond=0)` compared on the
same date is a comparison of times of day. -/
def marketOpenMicros : ℕ := timeOfDayMicros 9 15 0 0

/-- `now.replace(hour=15, minute=30, second=0, microsecond=0)`. -/
def marketCloseMicros : ℕ := timeOfDayMicros 15 30 0 0

/-- Time of day of an instant, in microseconds since local midnight. -/
def nowMicros (n : ISTNow) : ℕ :=
  timeOfDayMicros n.hour.val n.minute.val n.second.val n.microsecond.val

/-- `is_market_open` (lines 133-149).  `none` models the wall clock failing to
resolve to IST (the `except` branch returns `False`).  Otherwise: closed when
`weekday() >= 5`, else open iff `market_open <= now <= market_close`. -/
def is_market_open (clock : Option ISTNow) : Bool :=
  match clock with
  | none => false
  | some now =>
      if 5 ≤ now.weekday.val then false
      else decide (marketOpenMicros ≤ nowMicros now ∧ nowMicros now ≤ marketCloseMicros)

/-- Outcome of one `requests.post` attempt inside `send_telegram_message`:
a response with some status code, or a raised transport exception. -/
inductive AttemptOutcome
  | resp (status : ℕ)
  | exn
deriving DecidableEq, Repr

/-- What one call of `send_telegram_message` did: its boolean return value,
how many attempts were made, and the sleep performed after each failed
attempt (0 when the code moved on without sleeping). -/
structure DeliveryResult where
  ok : Bool
  attempts : ℕ
  delays : List ℕ
deriving DecidableEq, Repr

/-- The `for attempt in range(5)` loop of `send_telegram_message`
(lines 119-131): a 200 response returns `True` immediately; a non-200
response is logged and the loop continues with no sleep; an exception is
logged and `time.sleep(2 ** attempt)` runs before the next iteration.
`fuel` counts iterations left, `attempt` is the current loop index. -/
def sendAttemptsFrom (sink : ℕ → AttemptOutcome) : ℕ → ℕ → DeliveryResult
  | 0, _ => ⟨false, 0, []⟩
  | fuel + 1, attempt =>
    match sink attempt with
    | AttemptOutcome.resp s =>
        if s = 200 then ⟨true, 1, []⟩
        else
          let r := sendAttemptsFrom sink fuel (attempt + 1)
          ⟨r.ok, r.attempts + 1, 0 :: r.delays⟩
    | AttemptOutcome.exn =>
        let r := sendAttemptsFrom sink fuel (attempt + 1)
        ⟨r.ok, r.attempts + 1, 2 ^ attempt :: r.delays⟩

/-- `send_telegram_message` (lines 110-131), with the external HTTP endpoint
abstracted as a map from attempt index to its outcome; after 5 attempts the
function returns `False`. -/
def send_telegram_message (sink : ℕ → AttemptOutcome) : DeliveryResult :=
  sendAttemptsFrom sink 5 0

/-- A candle timestamp as reported by the data source (`current_candle.name`,
line 237): either naive (`tz is None`) or zone-aware.  A zone-aware pandas
timestamp stores the absolute instant; a naive one is interpreted as UTC by
`tz_localize('UTC')`, so its raw value is the absolute instant as well.
Instants are seconds since an arbitrary UTC epoch. -/
inductive SourceTime
  | naive (raw : ℚ)
  | aware (instant : ℚ)
deriving DecidableEq, Repr

/-- The absolute UTC instant denoted by a source timestamp. -/
def absInstant : SourceTime → ℚ
  | SourceTime.naive raw => raw
  | SourceTime.aware instant => instant

/-- IST = UTC+05:30, in seconds. -/
def istOffsetSeconds : ℚ := 19800

/-- IST wall-clock seconds of a candle timestamp, following the two branches
at lines 238-243: naive timestamps are localized to UTC then converted to
IST; aware ones are converted directly. -/
def candleTimeIST : SourceTime → ℚ
  | SourceTime.naive raw => raw + istOffsetSeconds
  | SourceTime.aware instant => instant + istOffsetSeconds

/-- The IST minute bucket of a candle timestamp.  The code renders the bucket
as `strftime("%Y%m%d_%H%M")`, which is determined by (and, over the dates in
scope, injective in) the IST minute index; the formatted date-time string is
abstracted as that integer. -/
def istMinuteBucket (t : SourceTime) : ℤ := ⌊candleTimeIST t / 60⌋

/-- `candle_id = f"{index_name}_{candle_time}"` (lines 244-245). -/
def candleId (indexName : String) (t : SourceTime) : String :=
  indexName ++ "_" ++ toString (istMinuteBucket t)

/-- One fetched candle: its timestamp and closing price (only fields used). -/
structure Candle where
  time : SourceTime
  close : ℚ
deriving DecidableEq, Repr

/-- A row of the `processed_candles` table (timestamp strings abstracted as
the underlying IST instant). -/
structure ProcessedRow where
  candle_id : String
  timestampIST : ℚ
  index_name : String
  price : ℚ
  movement : ℚ
  direction : Direction
  alert_sent : Bool
deriving DecidableEq, Repr

/-- A row of the `alerts` table (`movement` is the absolute movement, as
stored by the code). -/
structure AlertRow where
  candle_id : String
  direction : Direction
  movement : ℚ
  price : ℚ
  index_name : String
  timestampIST : ℚ
  telegram_sent : Bool
deriving DecidableEq, Repr

/-- The SQLite database contents. -/
structure DB where
  processed : List ProcessedRow
  alerts : List AlertRow
deriving DecidableEq, Repr

/-- `SELECT COUNT(*) FROM processed_candles WHERE candle_id = ?`, with the
success flag injecting a storage failure as `Except.error`. -/
def dbCountProcessed (readOk : Bool) (db : DB) (id : String) : Except String ℕ :=
  if readOk then Except.ok ((db.processed.filter (fun r => r.candle_id == id)).length)
  else Except.error "database error"

/-- `is_candle_processed` (lines 151-162): `count > 0`, and `False` when the
storage read raises (fail-open). -/
def is_candle_processed (readOk : Bool) (db : DB) (id : String) : Bool :=
  match dbCountProcessed readOk db id with
  | Except.ok count => decide (count > 0)
  | Except.error _ => false

/-- `INSERT OR REPLACE INTO processed_candles` keyed by the UNIQUE
`candle_id`: any existing row with the same id is replaced. -/
def upsertProcessed (db : DB) (row : ProcessedRow) : DB :=
  { db with processed :=
      db.processed.filter (fun r => !(r.candle_id == row.candle_id)) ++ [row] }

/-- The raw insert of `save_processed_candle`, failures as `Except.error`. -/
def dbInsertProcessed (writeOk : Bool) (db : DB) (row : ProcessedRow) :
    Except String DB :=
  if writeOk then Except.ok (upsertProcessed db row)
  else Except.error "database error"

/-- `save_processed_candle` (lines 164-187): the surrounding `try/except`
swallows a failed write, logging it and leaving the store unchanged. -/
def save_processed_candle (writeOk : Bool) (db : DB) (row : ProcessedRow) :
    DB × List String :=
  match dbInsertProcessed writeOk db row with
  | Except.ok db1 => (db1, [])
  | Except.error e => (db, ["Database save error: " ++ e])

/-- The raw `INSERT INTO alerts` of `save_alert` (append-only). -/
def dbInsertAlert (writeOk : Bool) (db : DB) (row : AlertRow) : Except String DB :=
  if writeOk then Except.ok { db with alerts := db.alerts ++ [row] }
  else Except.error "database error"

/-- `save_alert` (lines 189-212): failures are swallowed and logged. -/
def save_alert (writeOk : Bool) (db : DB) (row : AlertRow) : DB × List String :=
  match dbInsertAlert writeOk db row with
  | Except.ok db1 => (db1, [])
  | Except.error e => (db, ["Alert save error: " ++ e])

/-- An entry of the in-memory `alerts_history` list (lines 285-292). -/
structure HistEntry where
  timeIST : ℚ
  index : String
  direction : Direction
  movement : ℚ
  price : ℚ
  sent : Bool
deriving DecidableEq, Repr

/-- `alerts_history.append(entry)` followed by
`if len(alerts_history) > 50: alerts_history = alerts_history[-50:]`
(lines 285-296): append, then keep only the most recent 50. -/
def pushAlert {α : Type} (history : List α) (entry : α) : List α :=
  let h := history ++ [entry]
  if h.length > 50 then h.drop (h.length - 50) else h

/-- The module-level mutable monitor state touched by `process_index_data`:
the single shared `current_price`, `last_update` and `alerts_history`
globals (lines 47-52). -/
structure MonitorState where
  alerts_history : List HistEntry
  current_price : ℚ
  last_update : Option String
deriving DecidableEq, Repr

/-- Success flags of the three SQLite operations reachable from one
processing step, injecting storage failures. -/
structure DBFlags where
  readOk : Bool
  writeProcOk : Bool
  writeAlertOk : Bool
deriving DecidableEq, Repr

/-- Which control path one call of `process_index_data` took. -/
inductive ProcessOutcome
  | fetchError
  | noData
  | alreadyProcessed
  | evaluated (alerted : Bool)
deriving DecidableEq, Repr

/-- Result of one `process_index_data` call: the new monitor state, the new
database contents, the control path taken, and the log lines emitted. -/
structure ProcResult where
  st : MonitorState
  db : DB
  outcome : ProcessOutcome
  logs : List String
deriving DecidableEq, Repr

/-- `data.iloc[-2]`, the last settled candle. -/
def lastSettled (data : List Candle) (h : ¬data.length < 2) : Candle :=
  data.get ⟨data.length - 2, by omega⟩

/-- `data.iloc[-1]`, the currently forming candle. -/
def currentBar (data : List Candle) (h : ¬data.length < 2) : Candle :=
  data.get ⟨data.length - 1, by omega⟩

/-- `process_index_data` (lines 214-311).  The fetch is passed in as
`none` (the `yf` call raised — caught by the outer `except`, which logs) or
`some data`.  The telegram delivery outcome is passed in as a boolean since
its retry loop is modelled separately by `send_telegram_message`.  `nowStr`
stands for `datetime.now(IST).strftime("%H:%M:%S")`.

Steps, in source order: fewer than 2 candles → silent return; compute the
movement and update the shared `current_price`/`last_update`; derive the
candle id; return if already processed; evaluate the threshold, and when it
is met save an alert row and push a history entry; always save the processed
candle with `alert_sent = abs_movement >= threshold`. -/
def process_index_data (st : MonitorState) (db : DB) (flags : DBFlags)
    (indexName : String) (threshold : ℚ) (fetch : Option (List Candle))
    (telegramDelivered : Bool) (nowStr : String) : ProcResult :=
  match fetch with
  | none => ⟨st, db, ProcessOutcome.fetchError,
      ["Error processing " ++ indexName ++ " data"]⟩
  | some data =>
    if h : data.length < 2 then ⟨st, db, ProcessOutcome.noData, []⟩
    else
      let ev := evaluate (lastSettled data h).close (currentBar data h).close threshold
      let st1 : MonitorState :=
        { st with current_price := (currentBar data h).close,
                  last_update := some nowStr }
      let cid := candleId indexName (currentBar data h).time
      if is_candle_processed flags.readOk db cid then
        ⟨st1, db, ProcessOutcome.alreadyProcessed, []⟩
      else
        let tIST := candleTimeIST (currentBar data h).time
        let step :=
          if ev.shouldAlert then
            let sa := save_alert flags.writeAlertOk db
              ⟨cid, ev.direction, |ev.movement|, (currentBar data h).close,
                indexName, tIST, telegramDelivered⟩
            let entry : HistEntry :=
              ⟨tIST, indexName, ev.direction, |ev.movement|,
                (currentBar data h).close, telegramDelivered⟩
            let st2 := { st1 with alerts_history := pushAlert st1.alerts_history entry }
            (sa.1, st2, sa.2)
          else (db, st1, ([] : List String))
        let sp := save_processed_candle flags.writeProcOk step.1
          ⟨cid, tIST, indexName, (currentBar data h).close, ev.movement,
            ev.direction, ev.shouldAlert⟩
        ⟨step.2.1, sp.1, ProcessOutcome.evaluated ev.shouldAlert,
          step.2.2 ++ sp.2⟩

end NiftyMonitor

namespace NiftyMonitor

/-- C1: the alert evaluation computes `movement = current - previous`,
direction UP exactly when the movement is positive (zero movement gives
DOWN), alerts exactly when `|movement| >= threshold` (boundary inclusive);
and the three concrete examples: `evaluate 100 108 8` alerts UP with
movement 8, `evaluate 100 107.99 8` does not alert, and `evaluate 100 100 t`
with `t > 0` has movement 0, direction DOWN and no alert. -/
theorem alert_evaluator_spec :
    (∀ prev cur t : ℚ,
      (evaluate prev cur t).movement = cur - prev ∧
      ((evaluate prev cur t).direction = Direction.UP ↔ 0 < cur - prev) ∧
      ((evaluate prev cur t).shouldAlert = true ↔ t ≤ |cur - prev|)) ∧
    evaluate 100 108 8 = ⟨8, Direction.UP, true⟩ ∧
    (evaluate 100 (10799 / 100) 8).shouldAlert = false ∧
    (∀ t : ℚ, 0 < t → evaluate 100 100 t = ⟨0, Direction.DOWN, false⟩) := by
  refine ⟨fun prev cur t => ⟨rfl, ?_, ?_⟩, ?_, ?_, fun t ht => ?_⟩
  · simp only [evaluate]
    by_cases h : (0 : ℚ) < cur - prev
    · simp [h]
    · simp [if_neg h, h]
  · simp [evaluate, ge_iff_le]
  · norm_num [evaluate, abs_of_pos]
  · norm_num [evaluate, abs_of_pos]
  · simp only [evaluate, EvalResult.mk.injEq]
    norm_num
    exact ht

/-- Witness for the hypothesis-bearing conjunct of `alert_evaluator_spec`. -/
theorem alert_evaluator_spec_witness :
    evaluate 100 100 8 = ⟨0, Direction.DOWN, false⟩ :=
  alert_evaluator_spec.2.2.2 8 (by norm_num)

/-- C2: the market-hours gate is open iff the weekday is not Saturday (5) or
Sunday (6) and the time of day lies in [09:15, 15:30] inclusive of both
boundaries; and an unresolvable clock yields closed rather than an error. -/
theorem market_hours_gate_spec :
    (∀ now : ISTNow,
      is_market_open (some now) = true ↔
        (now.weekday.val ≠ 5 ∧ now.weekday.val ≠ 6 ∧
         marketOpenMicros ≤ nowMicros now ∧ nowMicros now ≤ marketCloseMicros)) ∧
    is_market_open none = false := by
  refine ⟨fun now => ?_, rfl⟩
  have hlt : now.weekday.val < 7 := now.weekday.isLt
  by_cases h : 5 ≤ now.weekday.val
  · simp only [is_market_open, if_pos h]
    constructor
    · intro hfalse
      exact absurd hfalse (by simp)
    · rintro ⟨h5, h6, -⟩
      omega
  · simp only [is_market_open, if_neg h, decide_eq_true_eq]
    constructor
    · intro ⟨h1, h2⟩
      exact ⟨by omega, by omega, h1, h2⟩
    · rintro ⟨-, -, h1, h2⟩
      exact ⟨h1, h2⟩

/-- The retry loop makes at most `fuel` attempts. -/
theorem sendAttemptsFrom_attempts_le (sink : ℕ → AttemptOutcome) :
    ∀ fuel attempt, (sendAttemptsFrom sink fuel attempt).attempts ≤ fuel := by
  intro fuel
  induction fuel with
  | zero => intro attempt; simp [sendAttemptsFrom]
  | succ n ih =>
      intro attempt
      simp only [sendAttemptsFrom]
      cases h : sink attempt with
      | resp s =>
          by_cases hs : s = 200
          · simp [hs]
          · simpa [hs] using Nat.succ_le_succ (ih (attempt + 1))
      | exn => simpa using Nat.succ_le_succ (ih (attempt + 1))

/-- If the sink never answers 200, the retry loop returns `false`. -/
theorem sendAttemptsFrom_ok_false (sink : ℕ → AttemptOutcome)
    (hsink : ∀ n, sink n ≠ AttemptOutcome.resp 200) :
    ∀ fuel attempt, (sendAttemptsFrom sink fuel attempt).ok = false := by
  intro fuel
  induction fuel with
  | zero => intro attempt; simp [sendAttemptsFrom]
  | succ n ih =>
      intro attempt
      simp only [sendAttemptsFrom]
      cases h : sink attempt with
      | resp s =>
          have hs : s ≠ 200 := by
            intro hs
            exact hsink attempt (by rw [h, hs])
          simpa [hs] using ih (attempt + 1)
      | exn => simpa using ih (attempt + 1)

/-- C3 counterexample: a sink that answers HTTP 500 on every attempt fails
all 5 attempts, yet the code sleeps after none of them (the `time.sleep`
sits in the `except` branch only), so the inter-attempt delays are
[0,0,0,0,0] and not the claimed exponential backoff. -/
theorem telegram_backoff_counterexample :
    send_telegram_message (fun _ => AttemptOutcome.resp 500) =
      ⟨false, 5, [0, 0, 0, 0, 0]⟩ ∧
    ([0, 0, 0, 0, 0] : List ℕ) ≠ [1, 2, 4, 8, 16] := by
  constructor
  · rfl
  · decide

/-- C3 amended: `send_telegram_message` makes at most 5 attempts, returns
false once the budget is exhausted without a 200 response, and backs off
exponentially (2^attempt) only after transport-error attempts, non-200
responses being retried immediately; a sink raising on the first 4 attempts
and answering 200 on the 5th yields true after exactly 5 attempts with
non-decreasing delays [1,2,4,8], and a sink raising on every attempt sleeps
[1,2,4,8,16] (the last sleep after the final attempt). -/
theorem telegram_retry_amended :
    (∀ sink, (send_telegram_message sink).attempts ≤ 5) ∧
    (∀ sink, (∀ n, sink n ≠ AttemptOutcome.resp 200) →
      (send_telegram_message sink).ok = false) ∧
    send_telegram_message
        (fun n => if n < 4 then AttemptOutcome.exn else AttemptOutcome.resp 200) =
      ⟨true, 5, [1, 2, 4, 8]⟩ ∧
    (send_telegram_message (fun _ => AttemptOutcome.exn)).delays = [1, 2, 4, 8, 16] ∧
    List.Sorted (· ≤ ·) ([1, 2, 4, 8] : List ℕ) := by
  refine ⟨fun sink => sendAttemptsFrom_attempts_le sink 5 0,
    fun sink h => sendAttemptsFrom_ok_false sink h 5 0, rfl, rfl, ?_⟩
  decide

/-- Witness for `telegram_retry_amended`: the all-transport-error sink
exhausts the budget and resolves to `false`. -/
theorem telegram_retry_amended_witness :
    (send_telegram_message (fun _ => AttemptOutcome.exn)).ok = false :=
  telegram_retry_amended.2.1 (fun _ => AttemptOutcome.exn)
    (fun _ h => AttemptOutcome.noConfusion h)

/-- `save_alert` never touches the `processed_candles` table. -/
theorem save_alert_processed (w : Bool) (db : DB) (row : AlertRow) :
    (save_alert w db row).1.processed = db.processed := by
  cases w <;> simp [save_alert, dbInsertAlert]

/-- `save_alert` adds at most one row matching any given predicate. -/
theorem save_alert_alerts_count (w : Bool) (db : DB) (row : AlertRow)
    (p : AlertRow → Bool) :
    ((save_alert w db row).1.alerts.filter p).length ≤
      (db.alerts.filter p).length + 1 := by
  cases w <;> simp [save_alert, dbInsertAlert, List.filter_append]
  cases hp : p row <;> simp [hp]

/-- `save_processed_candle` never touches the `alerts` table. -/
theorem save_processed_alerts (w : Bool) (db : DB) (row : ProcessedRow) :
    (save_processed_candle w db row).1.alerts = db.alerts := by
  cases w <;> simp [save_processed_candle, dbInsertProcessed, upsertProcessed]

/-- The successful existence check is the count of matching rows. -/
theorem is_candle_processed_true_iff (db : DB) (id : String) :
    is_candle_processed true db id = true ↔
      0 < (db.processed.filter (fun r => r.candle_id == id)).length := by
  simp [is_candle_processed, dbCountProcessed]

/-- A fetch with fewer than 2 candles returns before doing anything. -/
theorem process_short_skip (st : MonitorState) (db : DB) (flags : DBFlags)
    (indexName : String) (threshold : ℚ) (data : List Candle)
    (tg : Bool) (nowStr : String) (h : data.length < 2) :
    process_index_data st db flags indexName threshold (some data) tg nowStr =
      ⟨st, db, ProcessOutcome.noData, []⟩ := by
  simp [process_index_data, dif_pos h]

/-- An already-processed candle id makes the step return right after the
status-field updates, leaving the database untouched. -/
theorem process_dedup_skip (st : MonitorState) (db : DB) (flags : DBFlags)
    (indexName : String) (threshold : ℚ) (data : List Candle) (tg : Bool)
    (nowStr : String) (h : ¬data.length < 2)
    (hproc : is_candle_processed flags.readOk db
        (candleId indexName (currentBar data h).time) = true) :
    process_index_data st db flags indexName threshold (some data) tg nowStr =
      ⟨{ st with
          current_price := (currentBar data h).close,
          last_update := some nowStr },
        db, ProcessOutcome.alreadyProcessed, []⟩ := by
  simp [process_index_data, dif_neg h, hproc]

/-- A not-yet-processed candle is always evaluated against the threshold. -/
theorem process_fresh_outcome (st : MonitorState) (db : DB) (flags : DBFlags)
    (indexName : String) (threshold : ℚ) (data : List Candle) (tg : Bool)
    (nowStr : String) (h : ¬data.length < 2)
    (hfresh : is_candle_processed flags.readOk db
      (candleId indexName (currentBar data h).time) = false) :
    (process_index_data st db flags indexName threshold (some data) tg nowStr).outcome =
      ProcessOutcome.evaluated
        (evaluate (lastSettled data h).close (currentBar data h).close
          threshold).shouldAlert := by
  cases halert : (evaluate (lastSettled data h).close (currentBar data h).close
      threshold).shouldAlert <;>
    simp [process_index_data, dif_neg h, hfresh, halert]

/-- After evaluating a fresh candle with a working processed-candle write,
exactly one `processed_candles` row carries its id. -/
theorem process_fresh_processed_count (st : MonitorState) (db : DB)
    (r w : Bool) (indexName : String) (threshold : ℚ) (data : List Candle)
    (tg : Bool) (nowStr : String) (h : ¬data.length < 2)
    (hfresh : is_candle_processed r db
      (candleId indexName (currentBar data h).time) = false) :
    ((process_index_data st db ⟨r, true, w⟩ indexName threshold (some data) tg
        nowStr).db.processed.filter
      (fun row => row.candle_id ==
        candleId indexName (currentBar data h).time)).length = 1 := by
  cases halert : (evaluate (lastSettled data h).close (currentBar data h).close
      threshold).shouldAlert <;>
    simp [process_index_data, dif_neg h, hfresh, halert, save_processed_candle,
      dbInsertProcessed, save_alert_processed, upsertProcessed,
      List.filter_append, List.filter_filter]

/-- Evaluating a fresh candle appends at most one `alerts` row. -/
theorem process_fresh_alerts_count (st : MonitorState) (db : DB)
    (flags : DBFlags) (indexName : String) (threshold : ℚ) (data : List Candle)
    (tg : Bool) (nowStr : String) (h : ¬data.length < 2) (p : AlertRow → Bool)
    (hfresh : is_candle_processed flags.readOk db
      (candleId indexName (currentBar data h).time) = false) :
    ((process_index_data st db flags indexName threshold (some data) tg
        nowStr).db.alerts.filter p).length ≤ (db.alerts.filter p).length + 1 := by
  cases halert : (evaluate (lastSettled data h).close (currentBar data h).close
      threshold).shouldAlert
  · simp [process_index_data, dif_neg h, hfresh, halert, save_processed_alerts]
  · simp only [process_index_data, dif_neg h, hfresh, halert]
    simp only [Bool.false_eq_true, if_false, if_true, save_processed_alerts]
    exact save_alert_alerts_count _ _ _ _

/-- Whenever the fetch yields at least 2 candles, the shared price and
last-update fields end up holding the current bar's close and the cycle's
wall time, on every control path. -/
theorem process_price_update (st : MonitorState) (db : DB) (flags : DBFlags)
    (indexName : String) (threshold : ℚ) (data : List Candle) (tg : Bool)
    (nowStr : String) (h : ¬data.length < 2) :
    (process_index_data st db flags indexName threshold (some data) tg
      nowStr).st.current_price = (currentBar data h).close ∧
    (process_index_data st db flags indexName threshold (some data) tg
      nowStr).st.last_update = some nowStr := by
  by_cases hproc : is_candle_processed flags.readOk db
      (candleId indexName (currentBar data h).time) = true
  · rw [process_dedup_skip st db flags indexName threshold data tg nowStr h hproc]
    exact ⟨rfl, rfl⟩
  · simp only [Bool.not_eq_true] at hproc
    cases halert : (evaluate (lastSettled data h).close (currentBar data h).close
        threshold).shouldAlert <;>
      simp [process_index_data, dif_neg h, hproc, halert]

/-- Folding pushes into an empty history keeps exactly the last 50 items. -/
theorem foldl_pushAlert_drop {α : Type} (l : List α) :
    List.foldl pushAlert [] l = l.drop (l.length - 50) := by
  induction l using List.reverseRecOn with
  | nil => simp
  | append_singleton l a ih =>
      rw [List.foldl_append, List.foldl_cons, List.foldl_nil, ih]
      by_cases hn : l.length < 50
      · have h0 : l.length - 50 = 0 := by omega
        have h1 : (l ++ [a]).length - 50 = 0 := by simp; omega
        rw [h0, h1, List.drop_zero, List.drop_zero]
        simp only [pushAlert]
        have hng : ¬(l ++ [a]).length > 50 := by simp; omega
        rw [if_neg hng]
      · push_neg at hn
        have hlen : (l.drop (l.length - 50)).length = 50 := by
          rw [List.length_drop]
          omega
        simp only [pushAlert]
        have hgt : (l.drop (l.length - 50) ++ [a]).length > 50 := by
          simp [hlen]
        rw [if_pos hgt]
        have h51 : (l.drop (l.length - 50) ++ [a]).length - 50 = 1 := by
          simp [hlen]
        rw [h51, List.drop_append_eq_append_drop, List.drop_drop, hlen,
          List.drop_append_eq_append_drop]
        have e1 : 1 - 50 = 0 := by omega
        have e2 : l.length - 50 + 1 = l.length + 1 - 50 := by omega
        have e3 : (l ++ [a]).length - 50 = l.length + 1 - 50 := by simp
        have e4 : l.length + 1 - 50 - l.length = 0 := by omega
        rw [e1, e2, e3, e4]

/-- C4: per-candle processing is idempotent.  With the ledger read and the
processed-candle write functioning, a first run on a fresh bucket is
evaluated and leaves exactly one processed-candle entry for its id
(regardless of whether it alerted) and at most one alert record; a second
run on the same candle id is skipped by the dedup check — it adds no alert
record, no processed entry, and leaves the alert history untouched. -/
theorem process_idempotent_per_candle (st : MonitorState) (db : DB) (w : Bool)
    (indexName : String) (threshold : ℚ) (data data' : List Candle)
    (tg tg' : Bool) (now now' : String)
    (h : ¬data.length < 2) (h' : ¬data'.length < 2) (r1 r2 : ProcResult)
    (hr1 : r1 = process_index_data st db ⟨true, true, w⟩ indexName threshold
      (some data) tg now)
    (hr2 : r2 = process_index_data r1.st r1.db ⟨true, true, w⟩ indexName threshold
      (some data') tg' now')
    (hsame : candleId indexName (currentBar data' h').time =
      candleId indexName (currentBar data h).time)
    (hfresh : is_candle_processed true db
      (candleId indexName (currentBar data h).time) = false)
    (halerts : (db.alerts.filter
      (fun a => a.candle_id ==
        candleId indexName (currentBar data h).time)).length = 0) :
    r1.outcome = ProcessOutcome.evaluated
      (evaluate (lastSettled data h).close (currentBar data h).close
        threshold).shouldAlert ∧
    (r1.db.processed.filter
      (fun row => row.candle_id ==
        candleId indexName (currentBar data h).time)).length = 1 ∧
    r2.outcome = ProcessOutcome.alreadyProcessed ∧
    r2.db = r1.db ∧
    r2.st.alerts_history = r1.st.alerts_history ∧
    (r2.db.alerts.filter
      (fun a => a.candle_id ==
        candleId indexName (currentBar data h).time)).length ≤ 1 := by
  subst hr2
  subst hr1
  have hcount := process_fresh_processed_count st db true w indexName threshold
    data tg now h hfresh
  have hacount := process_fresh_alerts_count st db ⟨true, true, w⟩ indexName
    threshold data tg now h
    (fun a => a.candle_id == candleId indexName (currentBar data h).time) hfresh
  have hproc2 : is_candle_processed true
      (process_index_data st db ⟨true, true, w⟩ indexName threshold (some data)
        tg now).db
      (candleId indexName (currentBar data' h').time) = true := by
    rw [hsame, is_candle_processed_true_iff, hcount]
    omega
  have hskip := process_dedup_skip
    (process_index_data st db ⟨true, true, w⟩ indexName threshold (some data)
      tg now).st
    (process_index_data st db ⟨true, true, w⟩ indexName threshold (some data)
      tg now).db
    ⟨true, true, w⟩ indexName threshold data' tg' now' h' hproc2
  refine ⟨process_fresh_outcome st db ⟨true, true, w⟩ indexName threshold data
    tg now h hfresh, hcount, ?_, ?_, ?_, ?_⟩
  · rw [hskip]
  · rw [hskip]
  · rw [hskip]
  · rw [hskip]
    simp only []
    omega

/-- Witness for `process_idempotent_per_candle`: two identical fetches of the
same alerting candle against an empty ledger; the second run is skipped. -/
theorem process_idempotent_witness :
    (process_index_data
        (process_index_data ⟨[], 0, none⟩ ⟨[], []⟩ ⟨true, true, true⟩ "NIFTY 50" 8
          (some [⟨SourceTime.naive 0, 100⟩, ⟨SourceTime.naive 60, 110⟩]) true
          "t1").st
        (process_index_data ⟨[], 0, none⟩ ⟨[], []⟩ ⟨true, true, true⟩ "NIFTY 50" 8
          (some [⟨SourceTime.naive 0, 100⟩, ⟨SourceTime.naive 60, 110⟩]) true
          "t1").db
        ⟨true, true, true⟩ "NIFTY 50" 8
        (some [⟨SourceTime.naive 0, 100⟩, ⟨SourceTime.naive 60, 110⟩]) true
        "t2").outcome = ProcessOutcome.alreadyProcessed :=
  (process_idempotent_per_candle ⟨[], 0, none⟩ ⟨[], []⟩ true "NIFTY 50" 8
    [⟨SourceTime.naive 0, 100⟩, ⟨SourceTime.naive 60, 110⟩]
    [⟨SourceTime.naive 0, 100⟩, ⟨SourceTime.naive 60, 110⟩] true true "t1" "t2"
    (by simp) (by simp) _ _ rfl rfl rfl rfl rfl).2.2.1

/-- C5: the dedup key is stable and timezone-normalized — naive and aware
source timestamps are converted to IST by the same instant arithmetic, and
any two timestamps (of either kind) whose normalized instants fall in the
same IST minute derive exactly the same candle id, regardless of
fractional-second skew. -/
theorem candle_id_normalization :
    (∀ x : ℚ, candleTimeIST (SourceTime.naive x) = candleTimeIST (SourceTime.aware x)) ∧
    (∀ t : SourceTime, candleTimeIST t = absInstant t + istOffsetSeconds) ∧
    (∀ (indexName : String) (t₁ t₂ : SourceTime),
      ⌊(absInstant t₁ + istOffsetSeconds) / 60⌋ =
        ⌊(absInstant t₂ + istOffsetSeconds) / 60⌋ →
      candleId indexName t₁ = candleId indexName t₂) := by
  refine ⟨fun x => rfl, fun t => by cases t <;> rfl,
    fun indexName t₁ t₂ hmin => ?_⟩
  have h1 : istMinuteBucket t₁ = istMinuteBucket t₂ := by
    simp only [istMinuteBucket]
    cases t₁ <;> cases t₂ <;> simpa [candleTimeIST, absInstant] using hmin
  simp [candleId, h1]

/-- Witness for `candle_id_normalization`: a naive timestamp 30.5 s after the
minute boundary and an aware one 59 s after it land in the same IST minute
and produce the same id. -/
theorem candle_id_normalization_witness :
    candleId "NIFTY 50" (SourceTime.naive (61 / 2)) =
      candleId "NIFTY 50" (SourceTime.aware 59) :=
  candle_id_normalization.2.2 "NIFTY 50" (SourceTime.naive (61 / 2))
    (SourceTime.aware 59)
    (by norm_num [absInstant, istOffsetSeconds])

/-- C6: ledger failures never stop the loop and reads fail open.  A failed
existence check reports the bucket as not yet processed; with both writes
failing, the step still runs to completion with the same state and control
path as with working writes, the store is simply left unchanged and a
"Database save error" line is logged whenever a bucket was evaluated. -/
theorem ledger_failures_contained :
    (∀ (db : DB) (id : String), is_candle_processed false db id = false) ∧
    (∀ (st : MonitorState) (db : DB) (r : Bool) (indexName : String)
        (threshold : ℚ) (fetch : Option (List Candle)) (tg : Bool) (nowStr : String),
      (process_index_data st db ⟨r, false, false⟩ indexName threshold fetch tg
        nowStr).db = db ∧
      (process_index_data st db ⟨r, false, false⟩ indexName threshold fetch tg
        nowStr).st =
        (process_index_data st db ⟨r, true, true⟩ indexName threshold fetch tg
          nowStr).st ∧
      (process_index_data st db ⟨r, false, false⟩ indexName threshold fetch tg
        nowStr).outcome =
        (process_index_data st db ⟨r, true, true⟩ indexName threshold fetch tg
          nowStr).outcome ∧
      (∀ a, (process_index_data st db ⟨r, false, false⟩ indexName threshold fetch
          tg nowStr).outcome = ProcessOutcome.evaluated a →
        "Database save error: database error" ∈
          (process_index_data st db ⟨r, false, false⟩ indexName threshold fetch tg
            nowStr).logs)) := by
  constructor
  · intro db id
    rfl
  · intro st db r indexName threshold fetch tg nowStr
    cases fetch with
    | none => simp [process_index_data]
    | some data =>
        by_cases h : data.length < 2
        · simp [process_index_data, dif_pos h]
        · by_cases hproc : is_candle_processed r db
              (candleId indexName (currentBar data h).time) = true
          · simp [process_index_data, dif_neg h, hproc]
          · simp only [Bool.not_eq_true] at hproc
            cases halert : (evaluate (lastSettled data h).close
                (currentBar data h).close threshold).shouldAlert <;>
              simp [process_index_data, dif_neg h, hproc, halert, save_alert,
                save_processed_candle, dbInsertAlert, dbInsertProcessed]

/-- Witness for `ledger_failures_contained`: a failed read on an empty store
reports unprocessed, and a no-alert cycle with failing writes logs the
database save error. -/
theorem ledger_failures_contained_witness :
    is_candle_processed false ⟨[], []⟩ "x" = false ∧
    "Database save error: database error" ∈
      (process_index_data ⟨[], 0, none⟩ ⟨[], []⟩ ⟨true, false, false⟩ "NIFTY 50" 8
        (some [⟨SourceTime.naive 0, 100⟩, ⟨SourceTime.naive 60, 100⟩]) false
        "t").logs := by
  refine ⟨ledger_failures_contained.1 ⟨[], []⟩ "x", ?_⟩
  refine (ledger_failures_contained.2 ⟨[], 0, none⟩ ⟨[], []⟩ true "NIFTY 50" 8
    (some [⟨SourceTime.naive 0, 100⟩, ⟨SourceTime.naive 60, 100⟩]) false
    "t").2.2.2 false ?_
  rw [process_fresh_outcome ⟨[], 0, none⟩ ⟨[], []⟩ ⟨true, false, false⟩
    "NIFTY 50" 8 [⟨SourceTime.naive 0, 100⟩, ⟨SourceTime.naive 60, 100⟩] false
    "t" (by simp) rfl]
  norm_num [evaluate, lastSettled, currentBar]

/-- C7: the in-memory alert history is a bounded FIFO buffer of capacity 50 —
a push onto a history within capacity stays within capacity, and pushing 60
entries into an empty history keeps exactly the most recent 50, in order
(the 10 oldest evicted). -/
theorem alert_history_bounded :
    (∀ (hist : List HistEntry) (e : HistEntry),
      hist.length ≤ 50 → (pushAlert hist e).length ≤ 50) ∧
    (∀ l : List HistEntry, l.length = 60 →
      List.foldl pushAlert [] l = l.drop 10) := by
  constructor
  · intro hist e hle
    simp only [pushAlert]
    by_cases hgt : (hist ++ [e]).length > 50
    · rw [if_pos hgt, List.length_drop]
      omega
    · rw [if_neg hgt]
      simp at hgt ⊢
      omega
  · intro l hl
    rw [foldl_pushAlert_drop, hl]

/-- Witness for `alert_history_bounded` at a concrete entry and a concrete
60-entry history. -/
theorem alert_history_bounded_witness :
    (pushAlert ([] : List HistEntry) ⟨0, "", Direction.UP, 0, 0, false⟩).length ≤ 50 ∧
    List.foldl pushAlert []
        (List.replicate 60 (⟨0, "", Direction.UP, 0, 0, false⟩ : HistEntry)) =
      (List.replicate 60 (⟨0, "", Direction.UP, 0, 0, false⟩ : HistEntry)).drop 10 :=
  ⟨alert_history_bounded.1 [] ⟨0, "", Direction.UP, 0, 0, false⟩ (by simp),
   alert_history_bounded.2 _ (by simp)⟩

/-- C8 counterexample: there is no per-instrument last price.  After a NIFTY
cycle records close 100 in the single shared `current_price`, a BSE SENSEX
cycle overwrites it with 200 — the price recorded for the other tracked
instrument does not stay unchanged, because only one shared field exists. -/
theorem shared_price_counterexample :
    (process_index_data ⟨[], 0, none⟩ ⟨[], []⟩ ⟨true, true, true⟩ "NIFTY 50" 8
      (some [⟨SourceTime.naive 0, 100⟩, ⟨SourceTime.naive 60, 100⟩]) false
      "t1").st.current_price = 100 ∧
    (process_index_data
      (process_index_data ⟨[], 0, none⟩ ⟨[], []⟩ ⟨true, true, true⟩ "NIFTY 50" 8
        (some [⟨SourceTime.naive 0, 100⟩, ⟨SourceTime.naive 60, 100⟩]) false
        "t1").st
      (process_index_data ⟨[], 0, none⟩ ⟨[], []⟩ ⟨true, true, true⟩ "NIFTY 50" 8
        (some [⟨SourceTime.naive 0, 100⟩, ⟨SourceTime.naive 60, 100⟩]) false
        "t1").db
      ⟨true, true, true⟩ "BSE SENSEX" 12
      (some [⟨SourceTime.naive 0, 200⟩, ⟨SourceTime.naive 60, 200⟩]) false
      "t2").st.current_price = 200 ∧
    (100 : ℚ) ≠ 200 := by
  refine ⟨?_, ?_, by norm_num⟩
  · exact (process_price_update ⟨[], 0, none⟩ ⟨[], []⟩ ⟨true, true, true⟩
      "NIFTY 50" 8 [⟨SourceTime.naive 0, 100⟩, ⟨SourceTime.naive 60, 100⟩] false
      "t1" (by simp)).1
  · exact (process_price_update _ _ ⟨true, true, true⟩
      "BSE SENSEX" 12 [⟨SourceTime.naive 0, 200⟩, ⟨SourceTime.naive 60, 200⟩]
      false "t2" (by simp)).1

/-- C8 amended: the monitor state keeps a single shared last-observed price
and last-update for all instruments; processing any instrument whose fetch
yields at least 2 candles overwrites them with that instrument's latest close
and the cycle's wall time, so a status query reports the price of whichever
instrument was processed most recently. -/
theorem shared_price_amended (st : MonitorState) (db : DB) (flags : DBFlags)
    (indexName : String) (threshold : ℚ) (data : List Candle) (tg : Bool)
    (nowStr : String) (h : ¬data.length < 2) :
    (process_index_data st db flags indexName threshold (some data) tg
      nowStr).st.current_price = (currentBar data h).close ∧
    (process_index_data st db flags indexName threshold (some data) tg
      nowStr).st.last_update = some nowStr :=
  process_price_update st db flags indexName threshold data tg nowStr h

/-- Witness for `shared_price_amended` at a concrete two-candle fetch. -/
theorem shared_price_amended_witness :
    (process_index_data ⟨[], 1, none⟩ ⟨[], []⟩ ⟨true, true, true⟩ "NIFTY 50" 8
      (some [⟨SourceTime.naive 0, 101⟩, ⟨SourceTime.naive 60, 103⟩]) true
      "w2").st.current_price = 103 :=
  (shared_price_amended ⟨[], 1, none⟩ ⟨[], []⟩ ⟨true, true, true⟩ "NIFTY 50" 8
    [⟨SourceTime.naive 0, 101⟩, ⟨SourceTime.naive 60, 103⟩] true "w2"
    (by simp)).1

/-- C9 counterexample: a one-candle fetch is skipped with NO log line — the
code returns silently, so the claim's "the event is logged" conjunct fails
(everything else about the skip holds: no alert, no ledger write, no state
change, no raise). -/
theorem short_fetch_counterexample :
    process_index_data ⟨[], 0, none⟩ ⟨[], []⟩ ⟨true, true, true⟩ "NIFTY 50" 8
        (some [⟨SourceTime.naive 0, 100⟩]) true "now" =
      ⟨⟨[], 0, none⟩, ⟨[], []⟩, ProcessOutcome.noData, []⟩ ∧
    (process_index_data ⟨[], 0, none⟩ ⟨[], []⟩ ⟨true, true, true⟩ "NIFTY 50" 8
        (some [⟨SourceTime.naive 0, 100⟩]) true "now").logs = [] := by
  constructor
  · exact process_short_skip _ _ _ _ _ _ _ _ (by simp)
  · rw [process_short_skip _ _ _ _ _ _ _ _ (by simp)]

/-- C9 amended: a fetch with fewer than 2 candles (including an empty one) is
treated as no data for the cycle rather than an error — the step returns
without raising, evaluates no alert, writes nothing to the ledger, leaves
the monitor state untouched, and (unlike the claim's wording) emits no log
line. -/
theorem short_fetch_no_data_amended (st : MonitorState) (db : DB)
    (flags : DBFlags) (indexName : String) (threshold : ℚ) (data : List Candle)
    (tg : Bool) (nowStr : String) (h : data.length < 2) :
    process_index_data st db flags indexName threshold (some data) tg nowStr =
      ⟨st, db, ProcessOutcome.noData, []⟩ :=
  process_short_skip st db flags indexName threshold data tg nowStr h

/-- Witness for `short_fetch_no_data_amended` at an empty fetch. -/
theorem short_fetch_no_data_amended_witness :
    process_index_data ⟨[], 5, none⟩ ⟨[], []⟩ ⟨false, false, false⟩ "BSE SENSEX" 12
        (some []) false "w" =
      ⟨⟨[], 5, none⟩, ⟨[], []⟩, ProcessOutcome.noData, []⟩ :=
  short_fetch_no_data_amended ⟨[], 5, none⟩ ⟨[], []⟩ ⟨false, false, false⟩
    "BSE SENSEX" 12 [] false "w" (by simp)

/-- C10: when the fetch yields at least two candles, the shared current-price
and last-update fields are written before the dedup check, so they change
even when the candle id turns out to be already processed and the rest of
the cycle is skipped (the database stays untouched on that path). -/
theorem status_updated_before_dedup (st : MonitorState) (db : DB)
    (flags : DBFlags) (indexName : String) (threshold : ℚ) (data : List Candle)
    (tg : Bool) (nowStr : String) (h : ¬data.length < 2)
    (hproc : is_candle_processed flags.readOk db
        (candleId indexName (currentBar data h).time) = true) :
    process_index_data st db flags indexName threshold (some data) tg nowStr =
      ⟨{ st with
          current_price := (currentBar data h).close,
          last_update := some nowStr },
        db, ProcessOutcome.alreadyProcessed, []⟩ :=
  process_dedup_skip st db flags indexName threshold data tg nowStr h hproc

/-- Witness for `status_updated_before_dedup`: a store already holding the
candle's id makes the step skip, yet the status fields carry the new close
and timestamp. -/
theorem status_updated_before_dedup_witness :
    process_index_data ⟨[], 0, none⟩
        ⟨[⟨candleId "NIFTY 50" (SourceTime.naive 0), 19800, "NIFTY 50", 100, 0,
            Direction.DOWN, false⟩], []⟩
        ⟨true, true, true⟩ "NIFTY 50" 8
        (some [⟨SourceTime.naive 0, 100⟩, ⟨SourceTime.naive 0, 105⟩]) true
        "12:00:00" =
      ⟨⟨[], 105, some "12:00:00"⟩,
        ⟨[⟨candleId "NIFTY 50" (SourceTime.naive 0), 19800, "NIFTY 50", 100, 0,
            Direction.DOWN, false⟩], []⟩,
        ProcessOutcome.alreadyProcessed, []⟩ :=
  status_updated_before_dedup ⟨[], 0, none⟩
    ⟨[⟨candleId "NIFTY 50" (SourceTime.naive 0), 19800, "NIFTY 50", 100, 0,
        Direction.DOWN, false⟩], []⟩
    ⟨true, true, true⟩ "NIFTY 50" 8
    [⟨SourceTime.naive 0, 100⟩, ⟨SourceTime.naive 0, 105⟩] true "12:00:00"
    (by simp) (by simp [is_candle_processed, dbCountProcessed, currentBar])

end NiftyMonitor
